import Mathlib

set_option linter.unusedVariables false

namespace Qdrant

/-! Verification development for the qdrant-lib embedding/actor layer.
    The definitions below are a shallow embedding of `src/instance.rs`,
    `src/client.rs`, `src/error.rs` and `src/ops/{mod,collections,points,query}.rs`.
    Types owned by the external engine crates (`collection`, `storage`, `segment`)
    are opaque collaborators of this layer; they are modelled as small concrete
    structures carrying only the fields this layer reads or moves. -/

/-! Basic identifiers. -/

abbrev ColName := String

abbrev ShardId := Nat

abbrev PointId := Nat

abbrev ColNames := List ColName

/-- Shard key, opaque engine-side value (keyword or number in the engine). -/
inductive ShardKey where
  | keyword (s : String)
  | number (n : Int)
deriving DecidableEq

/-- Caller-facing shard-key selector (external `collection` crate type). -/
inductive ShardKeySelector where
  | ShardKey (k : ShardKey)
  | ShardKeys (ks : List ShardKey)
deriving DecidableEq

/-- Internal shard selector (external `collection` crate type). -/
inductive ShardSelectorInternal where
  | Empty
  | All
  | ShardKey (k : ShardKey)
  | ShardKeys (ks : List ShardKey)
  | ShardId (id : ShardId)
deriving DecidableEq

/-- Models the engine crate's `From<ShardKeySelector> for ShardSelectorInternal`:
    a single key maps to `ShardKey`, a list of keys to `ShardKeys`. -/
def shardKeySelectorInto : ShardKeySelector → ShardSelectorInternal
  | .ShardKey k => .ShardKey k
  | .ShardKeys ks => .ShardKeys ks

/-! Error types, from `src/error.rs` and the external `storage`/`collection` crates. -/

/-- Engine-side error (external `storage` crate `StorageError`), opaque to this
    layer except for the constructors used by `StorageError::bad_request` and
    `StorageError::service_error`. -/
inductive StorageError where
  | BadInput (description : String)
  | NotFound (description : String)
  | ServiceError (description : String)
  | BadRequest (description : String)
  | Locked (description : String)
deriving DecidableEq

/-- Models `StorageError::bad_request`. -/
def StorageError.bad_request (description : String) : StorageError :=
  .BadRequest description

/-- Models `StorageError::service_error`. -/
def StorageError.service_error (description : String) : StorageError :=
  .ServiceError description

/-- External `collection` crate `CollectionError`; only the `NotFound` shape is
    inspected by this layer (in `QdrantClient::get_collection`). -/
inductive CollectionError where
  | NotFound (what : String)
  | ServiceError (description : String)
deriving DecidableEq

/-- `QdrantError` from `src/error.rs`: three variants, with `From` impls for
    `CollectionError`, `StorageError` and the oneshot `RecvError`. -/
inductive QdrantError where
  | Collection (e : CollectionError)
  | Storage (e : StorageError)
  | ResponseRecv
deriving DecidableEq

/-- Discriminates the `ResponseRecv` ("response lost") variant of `QdrantError`. -/
def QdrantError.isResponseRecv : QdrantError → Bool
  | .ResponseRecv => true
  | _ => false

/-! Opaque engine payload types. The embedding layer only moves these values
    (apart from the few fields noted in the client), so one representative
    field each suffices. -/

/-- Opaque engine record payload. -/
structure Record where
  id : PointId
deriving DecidableEq

/-- Engine count result; the client reads the `count` field. -/
structure CountResult where
  count : Nat
deriving DecidableEq

/-- Opaque engine update acknowledgement. -/
structure UpdateResult where
  operation_id : Nat
deriving DecidableEq

/-- Opaque engine collection info payload. -/
structure CollectionInfo where
  status : Nat
deriving DecidableEq

/-- Opaque engine scored point payload. -/
structure ScoredPoint where
  id : PointId
deriving DecidableEq

/-- Engine group-by result; the client reads the `groups` field. -/
structure GroupsResult where
  groups : List Nat
deriving DecidableEq

/-- Alias description (external `collection` crate type). -/
structure AliasDescription where
  alias_name : String
  collection_name : String
deriving DecidableEq

/-- Aliases listing response (external `collection` crate type). -/
structure CollectionsAliasesResponse where
  aliases : List AliasDescription
deriving DecidableEq

/-- Opaque filter payload. -/
structure Filter where
  key : String
deriving DecidableEq

/-- Opaque payload document. -/
structure Payload where
  value : String
deriving DecidableEq

/-- Opaque point-with-vector payload. -/
structure PointStruct where
  pid : PointId
deriving DecidableEq

/-- Opaque per-point vector update payload. -/
structure PointVectors where
  pid : PointId
deriving DecidableEq

/-- Opaque collection creation config. -/
structure CreateCollection where
  cfg : String
deriving DecidableEq

/-- Opaque collection update config. -/
structure UpdateCollection where
  cfg : String
deriving DecidableEq

/-! Request payload types (external `collection` crate shapes used by the
    dispatcher in `src/ops/points.rs` and `src/ops/query.rs`). -/

/-- Opaque inner point-retrieval request. -/
structure PointRequestInternal where
  ids : List PointId
deriving DecidableEq

/-- `PointRequest`: inner request plus an optional shard-key selector. -/
structure PointRequest where
  point_request : PointRequestInternal
  shard_key : Option ShardKeySelector
deriving DecidableEq

/-- Inner count request. -/
structure CountRequestInternal where
  filter : Option Filter
  exact : Bool
deriving DecidableEq

/-- `CountRequest`: inner request plus an optional shard-key selector. -/
structure CountRequest where
  count_request : CountRequestInternal
  shard_key : Option ShardKeySelector
deriving DecidableEq

/-- Points-by-ids selector with an optional shard key. -/
structure PointIdsList where
  points : List PointId
  shard_key : Option ShardKeySelector
deriving DecidableEq

/-- Points-by-filter selector with an optional shard key. -/
structure FilterSelector where
  filter : Filter
  shard_key : Option ShardKeySelector
deriving DecidableEq

/-- `PointsSelector`: either explicit ids or a filter. -/
inductive PointsSelector where
  | PointIdsSelector (l : PointIdsList)
  | FilterSelector (f : FilterSelector)
deriving DecidableEq

/-- `PointInsertOperations` (external type): point data plus an optional shard
    key. Its `decompose` method splits the shard key from the operation. -/
structure PointInsertOperations where
  points : List PointStruct
  shard_key : Option ShardKeySelector
deriving DecidableEq

/-- Models `PointInsertOperations::decompose`. -/
def PointInsertOperations.decompose (o : PointInsertOperations) :
    Option ShardKeySelector × List PointStruct :=
  (o.shard_key, o.points)

/-- `UpdateVectors` request payload. -/
structure UpdateVectors where
  points : List PointVectors
  shard_key : Option ShardKeySelector
deriving DecidableEq

/-- `DeleteVectors` request payload: named vectors, optional filter, optional
    explicit point ids, optional shard key. -/
structure DeleteVectors where
  vector : List String
  filter : Option Filter
  points : Option (List PointId)
  shard_key : Option ShardKeySelector
deriving DecidableEq

/-- `SetPayload` request payload. -/
structure SetPayload where
  payload : Payload
  points : Option (List PointId)
  filter : Option Filter
  shard_key : Option ShardKeySelector
deriving DecidableEq

/-- `DeletePayload` request payload. -/
structure DeletePayload where
  keys : List String
  points : Option (List PointId)
  filter : Option Filter
  shard_key : Option ShardKeySelector
deriving DecidableEq

/-! Engine-side collection update operations built by the dispatcher. -/

inductive PointOperations where
  | UpsertPoints (points : List PointStruct)
  | DeletePoints (ids : List PointId)
  | DeletePointsByFilter (filter : Filter)
deriving DecidableEq

inductive VectorOperations where
  | UpdateVectors (points : List PointVectors)
  | DeleteVectors (ids : List PointId) (names : List String)
  | DeleteVectorsByFilter (filter : Filter) (names : List String)
deriving DecidableEq

inductive PayloadOps where
  | SetPayload (payload : Payload) (points : Option (List PointId)) (filter : Option Filter)
  | OverwritePayload (payload : Payload) (points : Option (List PointId)) (filter : Option Filter)
  | DeletePayload (keys : List String) (points : Option (List PointId)) (filter : Option Filter)
  | ClearPayload (points : List PointId)
  | ClearPayloadByFilter (filter : Filter)
deriving DecidableEq

inductive CollectionUpdateOperations where
  | PointOperation (op : PointOperations)
  | VectorOperation (op : VectorOperations)
  | PayloadOperation (op : PayloadOps)
deriving DecidableEq

/-- Write ordering; `WriteOrdering::default()` is `Weak`. -/
inductive WriteOrdering where
  | Weak
  | Medium
  | Strong
deriving DecidableEq

def WriteOrdering.default : WriteOrdering := .Weak

/-! Collection meta operations, from `src/ops/collections.rs`. -/

inductive AliasOperations where
  | CreateAlias (collection_name : String) (alias_name : String)
  | DeleteAlias (alias_name : String)
  | RenameAlias (old_alias_name : String) (new_alias_name : String)
deriving DecidableEq

structure ChangeAliasesOperation where
  actions : List AliasOperations
deriving DecidableEq

inductive CollectionMetaOperations where
  | CreateCollection (name : ColName) (op : CreateCollection)
  | UpdateCollection (name : ColName) (op : UpdateCollection)
  | DeleteCollection (name : ColName)
  | ChangeAliases (op : ChangeAliasesOperation)
deriving DecidableEq

/-! Query request payloads, from `src/ops/query.rs` (external shapes). -/

/-- Opaque inner search request. -/
structure SearchRequestInternal where
  query : String
deriving DecidableEq

/-- Core search request forwarded to the engine. -/
structure CoreSearchRequest where
  query : String
deriving DecidableEq

/-- Models the `Into<CoreSearchRequest>` conversion applied by the dispatcher. -/
def SearchRequestInternal.toCore (r : SearchRequestInternal) : CoreSearchRequest :=
  ⟨r.query⟩

structure SearchRequest where
  search_request : SearchRequestInternal
  shard_key : Option ShardKeySelector
deriving DecidableEq

structure SearchRequestBatch where
  searches : List SearchRequest
deriving DecidableEq

structure SearchGroupsRequestInternal where
  query : String
deriving DecidableEq

structure SearchGroupsRequest where
  search_group_request : SearchGroupsRequestInternal
  shard_key : Option ShardKeySelector
deriving DecidableEq

structure RecommendRequestInternal where
  positive : List PointId
deriving DecidableEq

structure RecommendRequest where
  recommend_request : RecommendRequestInternal
  shard_key : Option ShardKeySelector
deriving DecidableEq

structure RecommendRequestBatch where
  searches : List RecommendRequest
deriving DecidableEq

structure RecommendGroupsRequestInternal where
  query : String
deriving DecidableEq

structure RecommendGroupsRequest where
  recommend_group_request : RecommendGroupsRequestInternal
  shard_key : Option ShardKeySelector
deriving DecidableEq

/-- The grouped request forwarded to `toc.group` (built via `.into()` from
    either a search-group or a recommend-group internal request). -/
inductive GroupRequest where
  | search (r : SearchGroupsRequestInternal)
  | recommend (r : RecommendGroupsRequestInternal)
deriving DecidableEq

/-! The Engine Handle (`TableOfContent`) as a typed call interface. Each
    constructor is one async method this layer invokes on the engine; the
    read-consistency and timeout arguments are always `None` in this layer and
    are omitted. -/

inductive EngineCall where
  | allCollections
  | getCollection (name : ColName)
  | collectionInfo (name : ColName) (shard : ShardSelectorInternal)
  | checkWriteLock
  | performCollectionMetaOp (op : CollectionMetaOperations)
  | listAliases
  | collectionAliases (name : ColName)
  | retrieve (col : ColName) (req : PointRequestInternal) (shard : ShardSelectorInternal)
  | count (col : ColName) (req : CountRequestInternal) (shard : ShardSelectorInternal)
  | update (col : ColName) (op : CollectionUpdateOperations) (wait : Bool)
      (ordering : WriteOrdering) (shard : ShardSelectorInternal)
  | coreSearchBatch (col : ColName) (searches : List CoreSearchRequest)
      (shard : ShardSelectorInternal)
  | group (col : ColName) (req : GroupRequest) (shard : ShardSelectorInternal)
  | recommend (col : ColName) (req : RecommendRequestInternal) (shard : ShardSelectorInternal)
  | recommendBatch (col : ColName)
      (reqs : List (RecommendRequestInternal × ShardSelectorInternal))
deriving DecidableEq

/-- Return type of each engine call. -/
def EngineCall.Ret : EngineCall → Type
  | .allCollections => List ColName
  | .getCollection _ => Unit
  | .collectionInfo _ _ => CollectionInfo
  | .checkWriteLock => Unit
  | .performCollectionMetaOp _ => Bool
  | .listAliases => List AliasDescription
  | .collectionAliases _ => List String
  | .retrieve _ _ _ => List Record
  | .count _ _ _ => CountResult
  | .update _ _ _ _ _ => UpdateResult
  | .coreSearchBatch _ _ _ => List (List ScoredPoint)
  | .group _ _ _ => GroupsResult
  | .recommend _ _ _ => List ScoredPoint
  | .recommendBatch _ _ => List (List ScoredPoint)

/-- An engine: a (possibly failing) interpretation of every engine call. -/
def Engine := (c : EngineCall) → Except StorageError c.Ret

/-! Dispatcher computations as call trees: a computation either returns,
    fails with a layer-produced storage error, or performs one engine call and
    continues with its result. Running one against an `Engine` yields the
    dispatcher's result; the trace lists the engine calls attempted (a failed
    call is the last entry). -/

inductive Prog (α : Type) where
  | ret (a : α)
  | err (e : StorageError)
  | call (c : EngineCall) (k : c.Ret → Prog α)

/-- Run a dispatcher computation against an engine: the first failing engine
    call aborts the computation with that error, mirroring Rust `?`. -/
def Prog.run (e : Engine) : Prog α → Except StorageError α
  | .ret a => .ok a
  | .err s => .error s
  | .call c k =>
    match e c with
    | .error s => .error s
    | .ok v => Prog.run e (k v)

/-- Engine calls attempted by a computation, in order; a failing call is
    included as the final entry. -/
def Prog.trace (e : Engine) : Prog α → List EngineCall
  | .ret _ => []
  | .err _ => []
  | .call c k =>
    match e c with
    | .error _ => [c]
    | .ok v => c :: Prog.trace e (k v)

/-- Map over the result of a computation (models wrapping the engine result in
    the matching response constructor after `?`). -/
def Prog.map (f : α → β) : Prog α → Prog β
  | .ret a => .ret (f a)
  | .err s => .err s
  | .call c k => .call c (fun v => Prog.map f (k v))

theorem Prog.run_map (e : Engine) (f : α → β) (p : Prog α) :
    Prog.run e (Prog.map f p) = (Prog.run e p).map f := by
  induction p with
  | ret a => rfl
  | err s => rfl
  | call c k ih =>
    simp only [Prog.map, Prog.run]
    cases h : e c with
    | error s => rfl
    | ok v => exact ih v

theorem Prog.trace_map (e : Engine) (f : α → β) (p : Prog α) :
    Prog.trace e (Prog.map f p) = Prog.trace e p := by
  induction p with
  | ret a => rfl
  | err s => rfl
  | call c k ih =>
    simp only [Prog.map, Prog.trace]
    cases h : e c with
    | error s => rfl
    | ok v => exact congrArg (List.cons c) (ih v)

theorem Except.map_eq_ok {ε α β : Type} {f : α → β} {x : Except ε α} {b : β}
    (h : x.map f = .ok b) : ∃ a, x = .ok a ∧ b = f a := by
  cases x with
  | error e => simp [Except.map] at h
  | ok a =>
    refine ⟨a, rfl, ?_⟩
    simpa [Except.map] using h.symm

theorem Prog.run_call_ok {e : Engine} {c : EngineCall} {k : c.Ret → Prog α} {b : α}
    (h : Prog.run e (.call c k) = .ok b) : ∃ v, e c = .ok v ∧ Prog.run e (k v) = .ok b := by
  simp only [Prog.run] at h
  cases hc : e c with
  | error s => rw [hc] at h; exact absurd h (by simp)
  | ok v => rw [hc] at h; exact ⟨v, rfl, h⟩

/-- An engine call that failed forces the whole computation to fail with that
    exact error: engine errors are propagated unchanged. -/
theorem Prog.run_err_of_trace_err (e : Engine) (p : Prog α) (c : EngineCall)
    (err : StorageError) (hm : c ∈ Prog.trace e p) (he : e c = .error err) :
    Prog.run e p = .error err := by
  induction p with
  | ret a => simp [Prog.trace] at hm
  | err s => simp [Prog.trace] at hm
  | call c' k ih =>
    simp only [Prog.trace] at hm
    cases h : e c' with
    | error s =>
      rw [h] at hm
      simp at hm
      subst hm
      rw [he] at h
      cases h
      simp [Prog.run, he]
    | ok v =>
      rw [h] at hm
      rcases List.mem_cons.mp hm with hcc | hmem
      · subst hcc
        rw [he] at h
        cases h
      · simp only [Prog.run, h]
        exact ih v hmem

theorem exists_ok_of_isOk {ε α : Type} {x : Except ε α} (h : x.isOk = true) :
    ∃ v, x = .ok v := by
  cases x with
  | error e => simp [Except.isOk, Except.toBool] at h
  | ok v => exact ⟨v, rfl⟩

/-! Shard-selector resolution, from `src/ops/mod.rs` and `src/ops/points.rs`. -/

/-- `shard_selector` from `src/ops/mod.rs`: the read-path resolution. A missing
    shard key targets all shards. -/
def shard_selector (shard_key : Option ShardKeySelector) : ShardSelectorInternal :=
  match shard_key with
  | none => .All
  | some shard_keys => shardKeySelectorInto shard_keys

/-- `get_shard_selector_for_update` from `src/ops/points.rs`: the write-path
    resolution. An explicit shard id always wins; with neither input the update
    targets the default (`Empty`) destination. The `debug_assert!` in the
    `(Some, Some)` branch is a no-op on the returned value and is modelled by
    `get_shard_selector_for_update_asserts`. -/
def get_shard_selector_for_update (shard_selection : Option ShardId)
    (shard_key : Option ShardKeySelector) : ShardSelectorInternal :=
  match shard_selection, shard_key with
  | some s, none => .ShardId s
  | some s, some _ => .ShardId s
  | none, some shard_key => shardKeySelectorInto shard_key
  | none, none => .Empty

/-- True exactly when the `debug_assert!(false, "Shard selection and shard key
    are mutually exclusive")` branch of `get_shard_selector_for_update` is hit:
    both inputs supplied. Debug-only; release builds return normally. -/
def get_shard_selector_for_update_asserts (shard_selection : Option ShardId)
    (shard_key : Option ShardKeySelector) : Bool :=
  shard_selection.isSome && shard_key.isSome

/-! Request and response taxonomy, from `src/ops/collections.rs`,
    `src/ops/points.rs`, `src/ops/query.rs` and `src/instance.rs`. -/

inductive CollectionRequest where
  | List
  | Get (name : ColName)
  | Create (arg : ColName × CreateCollection)
  | Update (arg : ColName × UpdateCollection)
  | Delete (name : ColName)
deriving DecidableEq

inductive AliasRequest where
  | List
  | Get (name : ColName)
  | Create (arg : ColName × String)
  | Delete (name : String)
  | Rename (arg : String × String)
deriving DecidableEq

inductive PointsRequest where
  | Get (arg : ColName × PointRequest)
  | Count (arg : ColName × CountRequest)
  | Delete (arg : ColName × PointsSelector)
  | Upsert (arg : ColName × PointInsertOperations)
  | UpdateVectors (arg : ColName × UpdateVectors)
  | DeleteVectors (arg : ColName × DeleteVectors)
  | SetPayload (arg : ColName × SetPayload)
  | OverwritePayload (arg : ColName × SetPayload)
  | DeletePayload (arg : ColName × DeletePayload)
  | ClearPayload (arg : ColName × PointsSelector)
deriving DecidableEq

inductive QueryRequest where
  | Search (arg : ColName × SearchRequest)
  | SearchBatch (arg : ColName × SearchRequestBatch)
  | SearchGroup (arg : ColName × SearchGroupsRequest)
  | Recommend (arg : ColName × RecommendRequest)
  | RecommendBatch (arg : ColName × RecommendRequestBatch)
  | RecommendGroup (arg : ColName × RecommendGroupsRequest)
deriving DecidableEq

inductive QdrantRequest where
  | Collection (req : CollectionRequest)
  | Alias (req : AliasRequest)
  | Points (req : PointsRequest)
  | Query (req : QueryRequest)
deriving DecidableEq

inductive CollectionResponse where
  | List (names : ColNames)
  | Get (info : CollectionInfo)
  | Create (done : Bool)
  | Update (done : Bool)
  | Delete (done : Bool)
deriving DecidableEq

inductive AliasResponse where
  | List (r : CollectionsAliasesResponse)
  | Get (r : CollectionsAliasesResponse)
  | Create (done : Bool)
  | Delete (done : Bool)
  | Rename (done : Bool)
deriving DecidableEq

inductive PointsResponse where
  | Get (records : List Record)
  | Count (r : CountResult)
  | Delete (r : UpdateResult)
  | Upsert (r : UpdateResult)
  | UpdateVectors (r : UpdateResult)
  | DeleteVectors (r : UpdateResult)
  | SetPayload (r : UpdateResult)
  | OverwritePayload (r : UpdateResult)
  | DeletePayload (r : UpdateResult)
  | ClearPayload (r : UpdateResult)
deriving DecidableEq

inductive QueryResponse where
  | Search (r : List ScoredPoint)
  | SearchBatch (r : List (List ScoredPoint))
  | SearchGroup (r : GroupsResult)
  | Recommend (r : List ScoredPoint)
  | RecommendBatch (r : List (List ScoredPoint))
  | RecommendGroup (r : GroupsResult)
deriving DecidableEq

inductive QdrantResponse where
  | Collection (resp : CollectionResponse)
  | Alias (resp : AliasResponse)
  | Points (resp : PointsResponse)
  | Query (resp : QueryResponse)
deriving DecidableEq

/-! Dispatcher helper functions, from `src/ops/points.rs`. Each mirrors one
    `do_*` function: build the collection operation, resolve the shard
    selector, perform `toc.update`. -/

def do_upsert_points (collection_name : ColName) (operation : PointInsertOperations)
    (shard_selection : Option ShardId) (wait : Bool) (ordering : WriteOrdering) :
    Prog UpdateResult :=
  let d := operation.decompose
  let collection_operation := CollectionUpdateOperations.PointOperation (.UpsertPoints d.2)
  let sel := get_shard_selector_for_update shard_selection d.1
  .call (.update collection_name collection_operation wait ordering sel) Prog.ret

def do_delete_points (collection_name : ColName) (points : PointsSelector)
    (shard_selection : Option ShardId) (wait : Bool) (ordering : WriteOrdering) :
    Prog UpdateResult :=
  let pr :=
    match points with
    | .PointIdsSelector l => (PointOperations.DeletePoints l.points, l.shard_key)
    | .FilterSelector f => (PointOperations.DeletePointsByFilter f.filter, f.shard_key)
  let sel := get_shard_selector_for_update shard_selection pr.2
  .call (.update collection_name (.PointOperation pr.1) wait ordering sel) Prog.ret

def do_update_vectors (collection_name : ColName) (operation : UpdateVectors)
    (shard_selection : Option ShardId) (wait : Bool) (ordering : WriteOrdering) :
    Prog UpdateResult :=
  let collection_operation :=
    CollectionUpdateOperations.VectorOperation (.UpdateVectors operation.points)
  let sel := get_shard_selector_for_update shard_selection operation.shard_key
  .call (.update collection_name collection_operation wait ordering sel) Prog.ret

/-- `do_delete_vectors`: one engine update per supplied selector (filter-based
    first, then id-based, the id-based result winning); with neither selector
    the layer itself fails with a bad-request error and performs no call. -/
def do_delete_vectors (collection_name : ColName) (operation : DeleteVectors)
    (shard_selection : Option ShardId) (wait : Bool) (ordering : WriteOrdering) :
    Prog UpdateResult :=
  let vector_names := operation.vector
  let sel := get_shard_selector_for_update shard_selection operation.shard_key
  match operation.filter, operation.points with
  | none, none => .err (StorageError.bad_request ("No filter or points provided"))
  | some f, none =>
    .call (.update collection_name
      (.VectorOperation (.DeleteVectorsByFilter f vector_names)) wait ordering sel) Prog.ret
  | none, some pts =>
    .call (.update collection_name
      (.VectorOperation (.DeleteVectors pts vector_names)) wait ordering sel) Prog.ret
  | some f, some pts =>
    .call (.update collection_name
      (.VectorOperation (.DeleteVectorsByFilter f vector_names)) wait ordering sel) fun r1 =>
      .call (.update collection_name
        (.VectorOperation (.DeleteVectors pts vector_names)) wait ordering sel) Prog.ret

def do_set_payload (collection_name : ColName) (operation : SetPayload)
    (shard_selection : Option ShardId) (wait : Bool) (ordering : WriteOrdering) :
    Prog UpdateResult :=
  let collection_operation := CollectionUpdateOperations.PayloadOperation
    (.SetPayload operation.payload operation.points operation.filter)
  let sel := get_shard_selector_for_update shard_selection operation.shard_key
  .call (.update collection_name collection_operation wait ordering sel) Prog.ret

def do_overwrite_payload (collection_name : ColName) (operation : SetPayload)
    (shard_selection : Option ShardId) (wait : Bool) (ordering : WriteOrdering) :
    Prog UpdateResult :=
  let collection_operation := CollectionUpdateOperations.PayloadOperation
    (.OverwritePayload operation.payload operation.points operation.filter)
  let sel := get_shard_selector_for_update shard_selection operation.shard_key
  .call (.update collection_name collection_operation wait ordering sel) Prog.ret

def do_delete_payload (collection_name : ColName) (operation : DeletePayload)
    (shard_selection : Option ShardId) (wait : Bool) (ordering : WriteOrdering) :
    Prog UpdateResult :=
  let collection_operation := CollectionUpdateOperations.PayloadOperation
    (.DeletePayload operation.keys operation.points operation.filter)
  let sel := get_shard_selector_for_update shard_selection operation.shard_key
  .call (.update collection_name collection_operation wait ordering sel) Prog.ret

def do_clear_payload (collection_name : ColName) (points : PointsSelector)
    (shard_selection : Option ShardId) (wait : Bool) (ordering : WriteOrdering) :
    Prog UpdateResult :=
  let pr :=
    match points with
    | .PointIdsSelector l => (PayloadOps.ClearPayload l.points, l.shard_key)
    | .FilterSelector f => (PayloadOps.ClearPayloadByFilter f.filter, f.shard_key)
  let sel := get_shard_selector_for_update shard_selection pr.2
  .call (.update collection_name (.PayloadOperation pr.1) wait ordering sel) Prog.ret

/-! Collection/alias dispatcher helpers, from `src/ops/collections.rs`. -/

def do_get_collection (name : ColName) (shard_key : Option ShardKeySelector) :
    Prog CollectionInfo :=
  .call (.getCollection name) fun _ =>
    .call (.collectionInfo name (shard_selector shard_key)) Prog.ret

def create_alias_op (collection_name : String) (alias_name : String) :
    ChangeAliasesOperation :=
  ⟨[.CreateAlias collection_name alias_name]⟩

def delete_alias_op (alias_name : String) : ChangeAliasesOperation :=
  ⟨[.DeleteAlias alias_name]⟩

def rename_alias_op (old_alias_name : String) (new_alias_name : String) :
    ChangeAliasesOperation :=
  ⟨[.RenameAlias old_alias_name new_alias_name]⟩

def do_list_aliases : Prog CollectionsAliasesResponse :=
  .call .listAliases fun aliases => .ret ⟨aliases⟩

def do_list_collection_aliases (collection_name : ColName) :
    Prog CollectionsAliasesResponse :=
  .call (.collectionAliases collection_name) fun als =>
    .ret ⟨als.map (fun a => ⟨a, collection_name⟩)⟩

/-! Query dispatcher helpers, from `src/ops/query.rs`. -/

def do_core_search_points (collection_name : ColName) (request : CoreSearchRequest)
    (shard_selection : ShardSelectorInternal) : Prog (List ScoredPoint) :=
  .call (.coreSearchBatch collection_name [request] shard_selection) fun batch_res =>
    match batch_res.head? with
    | some r => .ret r
    | none => .err (StorageError.service_error ("Empty search result"))

/-- Models the engine crate's `batch_requests` helper as used by
    `do_search_batch_points`: consecutive requests with the same shard selector
    are grouped into one engine batch call. -/
def searchBatchGroups :
    List (CoreSearchRequest × ShardSelectorInternal) →
      List (ShardSelectorInternal × List CoreSearchRequest)
  | [] => []
  | (r, s) :: rest =>
    match searchBatchGroups rest with
    | [] => [(s, [r])]
    | (s2, rs) :: gs =>
      if s = s2 then (s2, r :: rs) :: gs else (s, [r]) :: (s2, rs) :: gs

def searchBatchProg (collection_name : ColName) :
    List (ShardSelectorInternal × List CoreSearchRequest) → Prog (List (List ScoredPoint))
  | [] => .ret []
  | (sel, reqs) :: rest =>
    .call (.coreSearchBatch collection_name reqs sel) fun (r : List (List ScoredPoint)) =>
      Prog.map (fun rs => r ++ rs) (searchBatchProg collection_name rest)

def do_search_batch_points (collection_name : ColName)
    (requests : List (CoreSearchRequest × ShardSelectorInternal)) :
    Prog (List (List ScoredPoint)) :=
  searchBatchProg collection_name (searchBatchGroups requests)

def do_search_point_groups (collection_name : ColName)
    (request : SearchGroupsRequestInternal) (shard_selection : ShardSelectorInternal) :
    Prog GroupsResult :=
  .call (.group collection_name (.search request) shard_selection) Prog.ret

def do_recommend_point_groups (collection_name : ColName)
    (request : RecommendGroupsRequestInternal) (shard_selection : ShardSelectorInternal) :
    Prog GroupsResult :=
  .call (.group collection_name (.recommend request) shard_selection) Prog.ret

def do_recommend_batch_points (collection_name : ColName)
    (request : RecommendRequestBatch) : Prog (List (List ScoredPoint)) :=
  let reqs := request.searches.map (fun req =>
    (req.recommend_request,
      match req.shard_key with
      | none => ShardSelectorInternal.All
      | some shard_key => shardKeySelectorInto shard_key))
  .call (.recommendBatch collection_name reqs) Prog.ret

/-! Family handlers: `impl Handler for ...` in `src/ops/collections.rs`,
    `src/ops/points.rs`, `src/ops/query.rs`. Every arm performs its engine
    work and wraps the value in the same-named response constructor. -/

def CollectionRequest.handle : CollectionRequest → Prog CollectionResponse
  | .List => Prog.map CollectionResponse.List (.call .allCollections Prog.ret)
  | .Get name => Prog.map CollectionResponse.Get (do_get_collection name none)
  | .Create arg =>
    Prog.map CollectionResponse.Create
      (.call .checkWriteLock fun _ =>
        .call (.performCollectionMetaOp (.CreateCollection arg.1 arg.2)) Prog.ret)
  | .Update arg =>
    Prog.map CollectionResponse.Update
      (.call (.performCollectionMetaOp (.UpdateCollection arg.1 arg.2)) Prog.ret)
  | .Delete name =>
    Prog.map CollectionResponse.Delete
      (.call (.performCollectionMetaOp (.DeleteCollection name)) Prog.ret)

def AliasRequest.handle : AliasRequest → Prog AliasResponse
  | .List => Prog.map AliasResponse.List do_list_aliases
  | .Get name => Prog.map AliasResponse.Get (do_list_collection_aliases name)
  | .Create arg =>
    Prog.map AliasResponse.Create
      (.call (.performCollectionMetaOp (.ChangeAliases (create_alias_op arg.1 arg.2)))
        Prog.ret)
  | .Delete name =>
    Prog.map AliasResponse.Delete
      (.call (.performCollectionMetaOp (.ChangeAliases (delete_alias_op name))) Prog.ret)
  | .Rename arg =>
    Prog.map AliasResponse.Rename
      (.call (.performCollectionMetaOp (.ChangeAliases (rename_alias_op arg.1 arg.2)))
        Prog.ret)

def PointsRequest.handle : PointsRequest → Prog PointsResponse
  | .Get arg =>
    Prog.map PointsResponse.Get
      (.call (.retrieve arg.1 arg.2.point_request (shard_selector arg.2.shard_key)) Prog.ret)
  | .Count arg =>
    Prog.map PointsResponse.Count
      (.call (.count arg.1 arg.2.count_request (shard_selector arg.2.shard_key)) Prog.ret)
  | .Delete arg =>
    Prog.map PointsResponse.Delete
      (do_delete_points arg.1 arg.2 none false WriteOrdering.default)
  | .Upsert arg =>
    Prog.map PointsResponse.Upsert
      (do_upsert_points arg.1 arg.2 none false WriteOrdering.default)
  | .UpdateVectors arg =>
    Prog.map PointsResponse.UpdateVectors
      (do_update_vectors arg.1 arg.2 none false WriteOrdering.default)
  | .DeleteVectors arg =>
    Prog.map PointsResponse.DeleteVectors
      (do_delete_vectors arg.1 arg.2 none false WriteOrdering.default)
  | .SetPayload arg =>
    Prog.map PointsResponse.SetPayload
      (do_set_payload arg.1 arg.2 none false WriteOrdering.default)
  | .OverwritePayload arg =>
    Prog.map PointsResponse.OverwritePayload
      (do_overwrite_payload arg.1 arg.2 none false WriteOrdering.default)
  | .DeletePayload arg =>
    Prog.map PointsResponse.DeletePayload
      (do_delete_payload arg.1 arg.2 none false WriteOrdering.default)
  | .ClearPayload arg =>
    Prog.map PointsResponse.ClearPayload
      (do_clear_payload arg.1 arg.2 none false WriteOrdering.default)

def QueryRequest.handle : QueryRequest → Prog QueryResponse
  | .Search arg =>
    let shard_selection :=
      match arg.2.shard_key with
      | none => ShardSelectorInternal.All
      | some shard_keys => shardKeySelectorInto shard_keys
    Prog.map QueryResponse.Search
      (do_core_search_points arg.1 arg.2.search_request.toCore shard_selection)
  | .SearchBatch arg =>
    let requests := arg.2.searches.map (fun req =>
      (req.search_request.toCore,
        match req.shard_key with
        | none => ShardSelectorInternal.All
        | some shard_keys => shardKeySelectorInto shard_keys))
    Prog.map QueryResponse.SearchBatch (do_search_batch_points arg.1 requests)
  | .SearchGroup arg =>
    let shard_selection :=
      match arg.2.shard_key with
      | none => ShardSelectorInternal.All
      | some shard_keys => shardKeySelectorInto shard_keys
    Prog.map QueryResponse.SearchGroup
      (do_search_point_groups arg.1 arg.2.search_group_request shard_selection)
  | .Recommend arg =>
    let shard_selection :=
      match arg.2.shard_key with
      | none => ShardSelectorInternal.All
      | some shard_keys => shardKeySelectorInto shard_keys
    Prog.map QueryResponse.Recommend
      (.call (.recommend arg.1 arg.2.recommend_request shard_selection) Prog.ret)
  | .RecommendBatch arg =>
    Prog.map QueryResponse.RecommendBatch (do_recommend_batch_points arg.1 arg.2)
  | .RecommendGroup arg =>
    let shard_selection :=
      match arg.2.shard_key with
      | none => ShardSelectorInternal.All
      | some shard_keys => shardKeySelectorInto shard_keys
    Prog.map QueryResponse.RecommendGroup
      (do_recommend_point_groups arg.1 arg.2.recommend_group_request shard_selection)

/-- `impl Handler for QdrantRequest` in `src/instance.rs`: route to the family
    handler and wrap in the family response constructor. -/
def QdrantRequest.handle : QdrantRequest → Prog QdrantResponse
  | .Collection req => Prog.map QdrantResponse.Collection req.handle
  | .Alias req => Prog.map QdrantResponse.Alias req.handle
  | .Points req => Prog.map QdrantResponse.Points req.handle
  | .Query req => Prog.map QdrantResponse.Query req.handle

/-! Family and sub-operation tags, used to state that request and response
    variants correspond one-to-one. -/

inductive OpTag where
  | collectionList
  | collectionGet
  | collectionCreate
  | collectionUpdate
  | collectionDelete
  | aliasList
  | aliasGet
  | aliasCreate
  | aliasDelete
  | aliasRename
  | pointsGet
  | pointsCount
  | pointsDelete
  | pointsUpsert
  | pointsUpdateVectors
  | pointsDeleteVectors
  | pointsSetPayload
  | pointsOverwritePayload
  | pointsDeletePayload
  | pointsClearPayload
  | querySearch
  | querySearchBatch
  | querySearchGroup
  | queryRecommend
  | queryRecommendBatch
  | queryRecommendGroup
deriving DecidableEq

def requestTag : QdrantRequest → OpTag
  | .Collection .List => .collectionList
  | .Collection (.Get _) => .collectionGet
  | .Collection (.Create _) => .collectionCreate
  | .Collection (.Update _) => .collectionUpdate
  | .Collection (.Delete _) => .collectionDelete
  | .Alias .List => .aliasList
  | .Alias (.Get _) => .aliasGet
  | .Alias (.Create _) => .aliasCreate
  | .Alias (.Delete _) => .aliasDelete
  | .Alias (.Rename _) => .aliasRename
  | .Points (.Get _) => .pointsGet
  | .Points (.Count _) => .pointsCount
  | .Points (.Delete _) => .pointsDelete
  | .Points (.Upsert _) => .pointsUpsert
  | .Points (.UpdateVectors _) => .pointsUpdateVectors
  | .Points (.DeleteVectors _) => .pointsDeleteVectors
  | .Points (.SetPayload _) => .pointsSetPayload
  | .Points (.OverwritePayload _) => .pointsOverwritePayload
  | .Points (.DeletePayload _) => .pointsDeletePayload
  | .Points (.ClearPayload _) => .pointsClearPayload
  | .Query (.Search _) => .querySearch
  | .Query (.SearchBatch _) => .querySearchBatch
  | .Query (.SearchGroup _) => .querySearchGroup
  | .Query (.Recommend _) => .queryRecommend
  | .Query (.RecommendBatch _) => .queryRecommendBatch
  | .Query (.RecommendGroup _) => .queryRecommendGroup

def responseTag : QdrantResponse → OpTag
  | .Collection (.List _) => .collectionList
  | .Collection (.Get _) => .collectionGet
  | .Collection (.Create _) => .collectionCreate
  | .Collection (.Update _) => .collectionUpdate
  | .Collection (.Delete _) => .collectionDelete
  | .Alias (.List _) => .aliasList
  | .Alias (.Get _) => .aliasGet
  | .Alias (.Create _) => .aliasCreate
  | .Alias (.Delete _) => .aliasDelete
  | .Alias (.Rename _) => .aliasRename
  | .Points (.Get _) => .pointsGet
  | .Points (.Count _) => .pointsCount
  | .Points (.Delete _) => .pointsDelete
  | .Points (.Upsert _) => .pointsUpsert
  | .Points (.UpdateVectors _) => .pointsUpdateVectors
  | .Points (.DeleteVectors _) => .pointsDeleteVectors
  | .Points (.SetPayload _) => .pointsSetPayload
  | .Points (.OverwritePayload _) => .pointsOverwritePayload
  | .Points (.DeletePayload _) => .pointsDeletePayload
  | .Points (.ClearPayload _) => .pointsClearPayload
  | .Query (.Search _) => .querySearch
  | .Query (.SearchBatch _) => .querySearchBatch
  | .Query (.SearchGroup _) => .querySearchGroup
  | .Query (.Recommend _) => .queryRecommend
  | .Query (.RecommendBatch _) => .queryRecommendBatch
  | .Query (.RecommendGroup _) => .queryRecommendGroup

/-- Number of engine calls each request performs when no engine call fails,
    read off the dispatcher source. -/
def numEngineCalls : QdrantRequest → Nat
  | .Collection (.Get _) => 2
  | .Collection (.Create _) => 2
  | .Collection _ => 1
  | .Alias _ => 1
  | .Points (.DeleteVectors arg) =>
    (if arg.2.filter.isSome then 1 else 0) + (if arg.2.points.isSome then 1 else 0)
  | .Points _ => 1
  | .Query (.SearchBatch arg) =>
    (searchBatchGroups (arg.2.searches.map (fun req =>
      (req.search_request.toCore,
        match req.shard_key with
        | none => ShardSelectorInternal.All
        | some shard_keys => shardKeySelectorInto shard_keys)))).length
  | .Query _ => 1

/-- A concrete engine that answers every call successfully, used for witnesses. -/
def defaultRet : (c : EngineCall) → c.Ret
  | .allCollections => []
  | .getCollection _ => ()
  | .collectionInfo _ _ => ⟨0⟩
  | .checkWriteLock => ()
  | .performCollectionMetaOp _ => true
  | .listAliases => []
  | .collectionAliases _ => []
  | .retrieve _ _ _ => []
  | .count _ _ _ => ⟨0⟩
  | .update _ _ _ _ _ => ⟨0⟩
  | .coreSearchBatch _ _ _ => [[]]
  | .group _ _ _ => ⟨[]⟩
  | .recommend _ _ _ => []
  | .recommendBatch _ _ => []

def defaultEngine : Engine := fun c => .ok (defaultRet c)

/-- A concrete engine that fails every call, used for witnesses. -/
def failingEngine : Engine := fun _ => .error (StorageError.ServiceError ("boom"))

/-! The client side, from `src/client.rs` and `src/lib.rs`. A submitted request
    travels over the bounded mpsc queue as a `(request, oneshot sender)` pair;
    the worker replies with `Result<QdrantResponse, StorageError>`. From the
    point of view of one `send_request` invocation, the channel interaction has
    exactly three observable outcomes. -/

/-- What the channels do to one submitted request. `closed`: the mpsc send
    fails because the queue is closed (the failed send is only logged, and the
    oneshot sender inside the returned message is dropped). `dropped`: the
    request is admitted but the worker drops the reply slot without fulfilling
    it. `replied r`: the worker fulfils the reply slot with `r`. -/
inductive ChannelOutcome where
  | closed
  | dropped
  | replied (r : Except StorageError QdrantResponse)

/-- `send_request` from `src/client.rs`: a failed mpsc send is only logged, so
    in both the `closed` and the `dropped` outcome the oneshot receiver fails
    with `RecvError`, surfaced as `QdrantError::ResponseRecv` via `?`; a worker
    error is surfaced as `QdrantError::Storage` via the `From` impl. -/
def send_request : ChannelOutcome → Except QdrantError QdrantResponse
  | .closed => .error .ResponseRecv
  | .dropped => .error .ResponseRecv
  | .replied (.ok resp) => .ok resp
  | .replied (.error s) => .error (.Storage s)

/-- The worker-side reply for a request: `msg.handle(&toc).await` from
    `src/instance.rs`. -/
def workerReply (e : Engine) (msg : QdrantRequest) : Except StorageError QdrantResponse :=
  Prog.run e msg.handle

/-- Outcome of one public client method: success, a returned error, or a
    `panic!("Unexpected response: ...")`. -/
inductive ClientOutcome (α : Type) where
  | ok (a : α)
  | err (e : QdrantError)
  | panicked

def ClientOutcome.isPanicked : ClientOutcome α → Bool
  | .panicked => true
  | _ => false

/-- `QdrantClient::create_collection`: accept only the
    `Collection(Create)` response shape, return errors, panic otherwise. -/
def create_collection_client (o : ChannelOutcome) : ClientOutcome Bool :=
  match send_request o with
  | .ok (.Collection (.Create v)) => .ok v
  | .error e => .err e
  | .ok _ => .panicked

/-- `QdrantClient::get_collection`: accept the `Collection(Get)` shape as
    `Some`, map a `QdrantError::Collection(CollectionError::NotFound)` error to
    `None`, return other errors, panic otherwise. -/
def get_collection_client (o : ChannelOutcome) : ClientOutcome (Option CollectionInfo) :=
  match send_request o with
  | .ok (.Collection (.Get v)) => .ok (some v)
  | .error (.Collection (.NotFound _)) => .ok none
  | .error e => .err e
  | .ok _ => .panicked

/-- `QdrantClient::count_points`: accept the `Points(Count)` shape and read its
    `count` field, return errors, panic otherwise. -/
def count_points_client (o : ChannelOutcome) : ClientOutcome Nat :=
  match send_request o with
  | .ok (.Points (.Count v)) => .ok v.count
  | .error e => .err e
  | .ok _ => .panicked

/-! The shutdown path of `QdrantInstance::start` in `src/instance.rs`: after
    the admission loop ends, the worker thread loops on `Arc::try_unwrap(toc)`;
    on failure (other holders still alive) it sleeps 300 ms and retries; on
    success it drops the engine and then sends the one-shot termination
    signal. -/

inductive ShutdownEvent where
  | sleep
  | dropEngine
  | sendSignal
deriving DecidableEq

/-- The `Arc::try_unwrap` loop, driven by the sequence of strong-counts it
    observes at each poll: `try_unwrap` succeeds exactly when the observed
    holder count is 1, and then the engine is dropped and the termination
    signal sent, in that order; otherwise the worker sleeps and polls again.
    The list is the (finite prefix of the) observation sequence. -/
def shutdownEvents : List Nat → List ShutdownEvent
  | [] => []
  | n :: rest =>
    if n = 1 then [ShutdownEvent.dropEngine, ShutdownEvent.sendSignal]
    else ShutdownEvent.sleep :: shutdownEvents rest

/-- Number of failed polls before the engine can be dropped: the length of the
    prefix of observations different from 1. -/
def pollsBeforeDrop : List Nat → Nat
  | [] => 0
  | n :: rest => if n = 1 then 0 else pollsBeforeDrop rest + 1

/-! Shared helper lemmas. -/

/-- A call whose continuation performs no further engine calls contributes
    exactly that call to the trace, whether it succeeds or fails. -/
theorem Prog.trace_call_single (e : Engine) (c : EngineCall) (k : c.Ret → Prog α)
    (h : ∀ v, Prog.trace e (k v) = []) : Prog.trace e (.call c k) = [c] := by
  simp only [Prog.trace]
  cases hc : e c with
  | error s => rfl
  | ok v =>
    show c :: Prog.trace e (k v) = [c]
    rw [h v]

/-- A single-call computation has trace length one. -/
theorem trace_len_one (e : Engine) (c : EngineCall) (k : c.Ret → Prog α)
    (hk : ∀ v, Prog.trace e (k v) = []) : (Prog.trace e (.call c k)).length = 1 := by
  rw [Prog.trace_call_single e c k hk]
  rfl

/-- Special case of `Prog.trace_call_single` for a bare return continuation. -/
theorem Prog.trace_call_ret (e : Engine) (c : EngineCall) :
    Prog.trace e (.call c Prog.ret) = [c] :=
  Prog.trace_call_single e c Prog.ret (fun _ => rfl)

/-- Every successful dispatch produces the response variant in the same family
    and sub-operation as the request. -/
theorem run_ok_tag (e : Engine) (req : QdrantRequest) (resp : QdrantResponse)
    (h : Prog.run e req.handle = .ok resp) : responseTag resp = requestTag req := by
  cases req <;> rename_i sub <;> cases sub <;>
    simp only [QdrantRequest.handle, CollectionRequest.handle, AliasRequest.handle,
      PointsRequest.handle, QueryRequest.handle, Prog.run_map] at h <;>
    (obtain ⟨r1, h1, hr1⟩ := Except.map_eq_ok h
     obtain ⟨r2, h2, hr2⟩ := Except.map_eq_ok h1
     subst hr1
     subst hr2
     rfl)

theorem trace_do_get_collection (e : Engine) (hok : ∀ c, (e c).isOk = true)
    (name : ColName) (shard_key : Option ShardKeySelector) :
    Prog.trace e (do_get_collection name shard_key) =
      [.getCollection name, .collectionInfo name (shard_selector shard_key)] := by
  obtain ⟨v, hv⟩ := exists_ok_of_isOk (hok (.getCollection name))
  simp only [do_get_collection, Prog.trace, hv]
  cases e (.collectionInfo name (shard_selector shard_key)) <;> rfl

theorem trace_do_delete_vectors_len (e : Engine) (hok : ∀ c, (e c).isOk = true)
    (col : ColName) (op : DeleteVectors) (ss : Option ShardId) (wait : Bool)
    (ord : WriteOrdering) :
    (Prog.trace e (do_delete_vectors col op ss wait ord)).length =
      (if op.filter.isSome then 1 else 0) + (if op.points.isSome then 1 else 0) := by
  obtain ⟨names, f, pts, key⟩ := op
  cases f with
  | none =>
    cases pts with
    | none => simp [do_delete_vectors, Prog.trace]
    | some p => exact trace_len_one e _ _ (fun v => rfl)
  | some f =>
    cases pts with
    | none => exact trace_len_one e _ _ (fun v => rfl)
    | some p =>
      obtain ⟨v, hv⟩ := exists_ok_of_isOk (hok (.update col
        (.VectorOperation (.DeleteVectorsByFilter f names)) wait ord
        (get_shard_selector_for_update ss key)))
      simp only [do_delete_vectors, Prog.trace, hv]
      cases e (.update col (.VectorOperation (.DeleteVectors p names)) wait ord
        (get_shard_selector_for_update ss key)) <;> rfl

theorem trace_searchBatchProg_len (e : Engine) (hok : ∀ c, (e c).isOk = true)
    (col : ColName) (groups : List (ShardSelectorInternal × List CoreSearchRequest)) :
    (Prog.trace e (searchBatchProg col groups)).length = groups.length := by
  induction groups with
  | nil => rfl
  | cons g rest ih =>
    obtain ⟨sel, reqs⟩ := g
    obtain ⟨v, hv⟩ := exists_ok_of_isOk (hok (.coreSearchBatch col reqs sel))
    simp only [searchBatchProg, Prog.trace, hv, Prog.trace_map, List.length_cons, ih]

/-- When no engine call fails, the number of engine calls a request performs is
    `numEngineCalls`. -/
theorem trace_len (e : Engine) (hok : ∀ c, (e c).isOk = true) (req : QdrantRequest) :
    (Prog.trace e req.handle).length = numEngineCalls req := by
  cases req with
  | Collection sub =>
    cases sub with
    | List =>
      simp only [QdrantRequest.handle, CollectionRequest.handle, Prog.trace_map]
      exact trace_len_one e _ _ (fun v => rfl)
    | Get name =>
      simp only [QdrantRequest.handle, CollectionRequest.handle, Prog.trace_map]
      rw [trace_do_get_collection e hok]
      rfl
    | Create arg =>
      obtain ⟨v, hv⟩ := exists_ok_of_isOk (hok .checkWriteLock)
      simp only [QdrantRequest.handle, CollectionRequest.handle, Prog.trace_map,
        Prog.trace, hv]
      cases e (.performCollectionMetaOp (.CreateCollection arg.1 arg.2)) <;> rfl
    | Update arg =>
      simp only [QdrantRequest.handle, CollectionRequest.handle, Prog.trace_map]
      exact trace_len_one e _ _ (fun v => rfl)
    | Delete name =>
      simp only [QdrantRequest.handle, CollectionRequest.handle, Prog.trace_map]
      exact trace_len_one e _ _ (fun v => rfl)
  | Alias sub =>
    cases sub <;>
      (simp only [QdrantRequest.handle, AliasRequest.handle, Prog.trace_map]
       exact trace_len_one e _ _ (fun v => rfl))
  | Points sub =>
    cases sub with
    | DeleteVectors arg =>
      simp only [QdrantRequest.handle, PointsRequest.handle, Prog.trace_map]
      rw [trace_do_delete_vectors_len e hok]
      rfl
    | Get arg =>
      simp only [QdrantRequest.handle, PointsRequest.handle, Prog.trace_map]
      exact trace_len_one e _ _ (fun v => rfl)
    | Count arg =>
      simp only [QdrantRequest.handle, PointsRequest.handle, Prog.trace_map]
      exact trace_len_one e _ _ (fun v => rfl)
    | Delete arg =>
      simp only [QdrantRequest.handle, PointsRequest.handle, Prog.trace_map]
      exact trace_len_one e _ _ (fun v => rfl)
    | Upsert arg =>
      simp only [QdrantRequest.handle, PointsRequest.handle, Prog.trace_map]
      exact trace_len_one e _ _ (fun v => rfl)
    | UpdateVectors arg =>
      simp only [QdrantRequest.handle, PointsRequest.handle, Prog.trace_map]
      exact trace_len_one e _ _ (fun v => rfl)
    | SetPayload arg =>
      simp only [QdrantRequest.handle, PointsRequest.handle, Prog.trace_map]
      exact trace_len_one e _ _ (fun v => rfl)
    | OverwritePayload arg =>
      simp only [QdrantRequest.handle, PointsRequest.handle, Prog.trace_map]
      exact trace_len_one e _ _ (fun v => rfl)
    | DeletePayload arg =>
      simp only [QdrantRequest.handle, PointsRequest.handle, Prog.trace_map]
      exact trace_len_one e _ _ (fun v => rfl)
    | ClearPayload arg =>
      simp only [QdrantRequest.handle, PointsRequest.handle, Prog.trace_map]
      exact trace_len_one e _ _ (fun v => rfl)
  | Query sub =>
    cases sub with
    | Search arg =>
      simp only [QdrantRequest.handle, QueryRequest.handle, Prog.trace_map]
      exact trace_len_one e _ _ (fun v => by cases v <;> rfl)
    | SearchBatch arg =>
      simp only [QdrantRequest.handle, QueryRequest.handle, Prog.trace_map,
        do_search_batch_points]
      rw [trace_searchBatchProg_len e hok]
      rfl
    | SearchGroup arg =>
      simp only [QdrantRequest.handle, QueryRequest.handle, Prog.trace_map]
      exact trace_len_one e _ _ (fun v => rfl)
    | Recommend arg =>
      simp only [QdrantRequest.handle, QueryRequest.handle, Prog.trace_map]
      exact trace_len_one e _ _ (fun v => rfl)
    | RecommendBatch arg =>
      simp only [QdrantRequest.handle, QueryRequest.handle, Prog.trace_map]
      exact trace_len_one e _ _ (fun v => rfl)
    | RecommendGroup arg =>
      simp only [QdrantRequest.handle, QueryRequest.handle, Prog.trace_map]
      exact trace_len_one e _ _ (fun v => rfl)

/-! Shutdown-loop helper lemmas. -/

/-- Occurrence count of an event in an event list. -/
def countEv (ev : ShutdownEvent) : List ShutdownEvent → Nat
  | [] => 0
  | x :: rest => (if x = ev then 1 else 0) + countEv ev rest

theorem shutdownEvents_of_mem (counts : List Nat) (h : 1 ∈ counts) :
    shutdownEvents counts =
      List.replicate (pollsBeforeDrop counts) ShutdownEvent.sleep ++
        [ShutdownEvent.dropEngine, ShutdownEvent.sendSignal] := by
  induction counts with
  | nil => cases h
  | cons n rest ih =>
    by_cases hn : n = 1
    · subst hn
      simp [shutdownEvents, pollsBeforeDrop]
    · have h1 : 1 ∈ rest := by
        rcases List.mem_cons.mp h with h2 | h2
        · exact absurd h2.symm hn
        · exact h2
      simp [shutdownEvents, pollsBeforeDrop, hn, ih h1, List.replicate_succ]

theorem shutdownEvents_of_not_mem (counts : List Nat) (h : 1 ∉ counts) :
    shutdownEvents counts = List.replicate counts.length ShutdownEvent.sleep := by
  induction counts with
  | nil => rfl
  | cons n rest ih =>
    have hn : n ≠ 1 := by
      intro hn1
      exact h (by simp [hn1])
    have h1 : 1 ∉ rest := by
      intro hr
      exact h (List.mem_cons.mpr (Or.inr hr))
    simp [shutdownEvents, hn, ih h1, List.replicate_succ]

theorem shutdownEvents_count_mem (counts : List Nat) (h : 1 ∈ counts) :
    countEv ShutdownEvent.sendSignal (shutdownEvents counts) = 1 ∧
    countEv ShutdownEvent.dropEngine (shutdownEvents counts) = 1 := by
  induction counts with
  | nil => cases h
  | cons n rest ih =>
    by_cases hn : n = 1
    · subst hn
      exact ⟨rfl, rfl⟩
    · have h1 : 1 ∈ rest := by
        rcases List.mem_cons.mp h with h2 | h2
        · exact absurd h2.symm hn
        · exact h2
      constructor
      · simp [shutdownEvents, hn, countEv, (ih h1).1]
      · simp [shutdownEvents, hn, countEv, (ih h1).2]

theorem shutdownEvents_count_not_mem (counts : List Nat) (h : 1 ∉ counts) :
    countEv ShutdownEvent.sendSignal (shutdownEvents counts) = 0 ∧
    countEv ShutdownEvent.dropEngine (shutdownEvents counts) = 0 := by
  induction counts with
  | nil => exact ⟨rfl, rfl⟩
  | cons n rest ih =>
    have hn : n ≠ 1 := by
      intro hn1
      exact h (by simp [hn1])
    have h1 : 1 ∉ rest := by
      intro hr
      exact h (List.mem_cons.mpr (Or.inr hr))
    constructor
    · simp [shutdownEvents, hn, countEv, (ih h1).1]
    · simp [shutdownEvents, hn, countEv, (ih h1).2]

/-- How a mismatched-shape response is detected: the tag of a successful
    `collectionCreate` reply forces its shape. -/
theorem response_create_shape (resp : QdrantResponse)
    (h : responseTag resp = .collectionCreate) :
    ∃ done, resp = .Collection (.Create done) := by
  cases resp <;> rename_i x <;> cases x <;> (try exact ⟨_, rfl⟩) <;>
    simp [responseTag] at h

/-! Claim theorems. -/

/-- C1: for every request submitted through the client, the successful reply is
    the response variant in the same family and sub-operation as the request;
    the dispatcher maps Collection/Alias/Points/Query requests exhaustively,
    each variant to exactly one matching response variant and never to a
    variant from another family or sub-operation. -/
theorem dispatch_round_trip (e : Engine) (req : QdrantRequest) (resp : QdrantResponse)
    (h : Prog.run e req.handle = .ok resp) : responseTag resp = requestTag req :=
  run_ok_tag e req resp h

theorem dispatch_round_trip_witness :
    responseTag (QdrantResponse.Points (.Count ⟨0⟩)) =
      requestTag (QdrantRequest.Points (.Count ("docs", ⟨⟨none, true⟩, none⟩))) :=
  dispatch_round_trip defaultEngine
    (QdrantRequest.Points (.Count ("docs", ⟨⟨none, true⟩, none⟩)))
    (QdrantResponse.Points (.Count ⟨0⟩)) rfl

/-- C2: driven by any sequence of observed holder counts, the shutdown loop
    never destroys the engine while the observed holder count differs from one
    (it only sleeps and polls again); at the first observation of exactly one
    holder it drops the engine and then sends the one-shot termination signal,
    so the signal is sent exactly once and only after the drop, and if the
    count never reaches one, neither the drop nor the signal ever happens. -/
theorem shutdown_signal_after_teardown (counts : List Nat) :
    (1 ∈ counts →
      shutdownEvents counts =
        List.replicate (pollsBeforeDrop counts) ShutdownEvent.sleep ++
          [ShutdownEvent.dropEngine, ShutdownEvent.sendSignal]) ∧
    (1 ∉ counts →
      shutdownEvents counts = List.replicate counts.length ShutdownEvent.sleep) ∧
    (1 ∈ counts →
      countEv ShutdownEvent.sendSignal (shutdownEvents counts) = 1 ∧
      countEv ShutdownEvent.dropEngine (shutdownEvents counts) = 1) ∧
    (1 ∉ counts →
      countEv ShutdownEvent.sendSignal (shutdownEvents counts) = 0 ∧
      countEv ShutdownEvent.dropEngine (shutdownEvents counts) = 0) :=
  ⟨shutdownEvents_of_mem counts, shutdownEvents_of_not_mem counts,
    shutdownEvents_count_mem counts, shutdownEvents_count_not_mem counts⟩

theorem shutdown_signal_after_teardown_witness :
    shutdownEvents [3, 2, 1] =
      List.replicate (pollsBeforeDrop [3, 2, 1]) ShutdownEvent.sleep ++
        [ShutdownEvent.dropEngine, ShutdownEvent.sendSignal] ∧
    shutdownEvents [2, 3] = List.replicate ([2, 3] : List Nat).length ShutdownEvent.sleep ∧
    countEv ShutdownEvent.sendSignal (shutdownEvents [3, 2, 1]) = 1 :=
  ⟨(shutdown_signal_after_teardown [3, 2, 1]).1 (by decide),
    (shutdown_signal_after_teardown [2, 3]).2.1 (by decide),
    ((shutdown_signal_after_teardown [3, 2, 1]).2.2.1 (by decide)).1⟩

/-- C3: when both an explicit shard id and a shard-key selector are supplied to
    an update operation, the resolved selector is `ShardSelectorInternal.ShardId`
    (the shard key is ignored), the misuse only trips the debug-time assertion,
    and the dispatch still performs its engine update with that shard id rather
    than raising a runtime error. -/
theorem update_shard_id_precedence (id : ShardId) (key : ShardKeySelector) :
    get_shard_selector_for_update (some id) (some key) =
      ShardSelectorInternal.ShardId id ∧
    get_shard_selector_for_update_asserts (some id) (some key) = true ∧
    ∀ (e : Engine) (col : ColName) (op : PointInsertOperations) (wait : Bool)
      (ord : WriteOrdering), op.shard_key = some key →
        Prog.trace e (do_upsert_points col op (some id) wait ord) =
          [EngineCall.update col (.PointOperation (.UpsertPoints op.points)) wait ord
            (.ShardId id)] := by
  refine ⟨rfl, rfl, ?_⟩
  intro e col op wait ord hkey
  obtain ⟨pts, sk⟩ := op
  dsimp only at hkey
  subst hkey
  exact Prog.trace_call_single e _ _ (fun v => rfl)

theorem update_shard_id_precedence_witness :
    get_shard_selector_for_update (some 7) (some (.ShardKey (.keyword ("eu")))) =
      ShardSelectorInternal.ShardId 7 ∧
    Prog.trace defaultEngine
        (do_upsert_points "docs" ⟨[], some (.ShardKey (.keyword ("eu")))⟩ (some 7) false
          .Weak) =
      [EngineCall.update "docs" (.PointOperation (.UpsertPoints [])) false .Weak
        (.ShardId 7)] :=
  ⟨(update_shard_id_precedence 7 (.ShardKey (.keyword ("eu")))).1,
    (update_shard_id_precedence 7 (.ShardKey (.keyword ("eu")))).2.2 defaultEngine "docs"
      ⟨[], some (.ShardKey (.keyword ("eu")))⟩ false .Weak rfl⟩

/-- C4: a read with no shard-key selector resolves to all shards while a write
    with neither shard id nor shard key resolves to the default (`Empty`)
    destination; the two resolutions are distinct values and both resolutions
    are plain values (the read handlers call the engine with `All` and the
    write path calls it with `Empty`, never erroring in either case). -/
theorem empty_selector_asymmetry :
    shard_selector none = ShardSelectorInternal.All ∧
    get_shard_selector_for_update none none = ShardSelectorInternal.Empty ∧
    (shard_selector none == get_shard_selector_for_update none none) = false ∧
    (∀ (e : Engine) (col : ColName) (pr : PointRequestInternal),
      Prog.trace e (PointsRequest.handle (.Get (col, ⟨pr, none⟩))) =
        [.retrieve col pr .All]) ∧
    (∀ (e : Engine) (col : ColName) (cr : CountRequestInternal),
      Prog.trace e (PointsRequest.handle (.Count (col, ⟨cr, none⟩))) =
        [.count col cr .All]) ∧
    (∀ (e : Engine) (col : ColName) (sr : SearchRequestInternal),
      Prog.trace e (QueryRequest.handle (.Search (col, ⟨sr, none⟩))) =
        [.coreSearchBatch col [sr.toCore] .All]) ∧
    (∀ (e : Engine) (col : ColName) (pts : List PointStruct) (wait : Bool)
      (ord : WriteOrdering),
      Prog.trace e (do_upsert_points col ⟨pts, none⟩ none wait ord) =
        [.update col (.PointOperation (.UpsertPoints pts)) wait ord .Empty]) := by
  refine ⟨rfl, rfl, rfl, ?_, ?_, ?_, ?_⟩
  · intro e col pr
    simp only [PointsRequest.handle, Prog.trace_map]
    exact Prog.trace_call_single e _ _ (fun v => rfl)
  · intro e col cr
    simp only [PointsRequest.handle, Prog.trace_map]
    exact Prog.trace_call_single e _ _ (fun v => rfl)
  · intro e col sr
    simp only [QueryRequest.handle, Prog.trace_map]
    exact Prog.trace_call_single e _ _ (fun v => by cases v <;> rfl)
  · intro e col pts wait ord
    exact Prog.trace_call_single e _ _ (fun v => rfl)

/-- C5 (amended): a submit against a closed command queue fails
    deterministically — the failed mpsc send is only logged, the reply slot is
    dropped with the message, and the await on the reply slot returns the
    `ResponseRecv` ("response lost") error; the code has no separate
    channel-closed error category, so this is the same error the caller gets
    when a live worker drops the reply slot. -/
theorem closed_queue_submit_fails :
    send_request ChannelOutcome.closed = .error QdrantError.ResponseRecv ∧
    QdrantError.isResponseRecv QdrantError.ResponseRecv = true :=
  ⟨rfl, rfl⟩

/-- C5 counterexample: the error a caller observes after the queue is closed is
    not distinct from the reply-lost error category — both are the
    `ResponseRecv` variant, and `QdrantError` has no channel-closed variant. -/
theorem closed_queue_error_not_distinct :
    send_request ChannelOutcome.closed = send_request ChannelOutcome.dropped ∧
    send_request ChannelOutcome.closed = .error QdrantError.ResponseRecv :=
  ⟨rfl, rfl⟩

/-- C6 (amended): for every request the dispatcher produces the matching
    response variant on success, any failing engine call aborts the dispatch
    with exactly that error, and, when no engine call fails, the number of
    engine calls performed is `numEngineCalls`: one for every variant except
    `Collection::Get` (two: lookup then info), `Collection::Create` (two:
    write-lock check then meta-op), `Points::DeleteVectors` (one per supplied
    selector: zero to two), and `Query::SearchBatch` (one per run of
    consecutive searches sharing a shard selector, zero for an empty batch). -/
theorem dispatch_call_counts (e : Engine) (req : QdrantRequest) :
    (∀ resp, Prog.run e req.handle = .ok resp → responseTag resp = requestTag req) ∧
    (∀ c err, c ∈ Prog.trace e req.handle → e c = .error err →
      Prog.run e req.handle = .error err) ∧
    ((∀ c, (e c).isOk = true) → (Prog.trace e req.handle).length = numEngineCalls req) :=
  ⟨fun resp h => run_ok_tag e req resp h,
    fun c err hm he => Prog.run_err_of_trace_err e req.handle c err hm he,
    fun hok => trace_len e hok req⟩

/-- C6 counterexample: a single delete-vectors envelope carrying both a filter
    and a points list triggers two engine update operations, refuting "exactly
    one call into the Engine Handle ... never two or more". -/
theorem delete_vectors_two_engine_calls :
    (Prog.trace defaultEngine
        (QdrantRequest.Points
          (.DeleteVectors ("docs", ⟨["v"], some ⟨"f"⟩, some [1, 2], none⟩))).handle).length =
      2 :=
  rfl

theorem dispatch_call_counts_witness :
    numEngineCalls (QdrantRequest.Collection .List) = 1 ∧
    (Prog.trace defaultEngine (QdrantRequest.Collection .List).handle).length =
      numEngineCalls (QdrantRequest.Collection .List) ∧
    responseTag (QdrantResponse.Collection (.List [])) =
      requestTag (QdrantRequest.Collection .List) :=
  ⟨rfl, (dispatch_call_counts defaultEngine (QdrantRequest.Collection .List)).2.2
      (fun c => rfl),
    (dispatch_call_counts defaultEngine (QdrantRequest.Collection .List)).1
      (QdrantResponse.Collection (.List [])) rfl⟩

/-- C7: engine-reported errors are passed through to the caller unchanged for
    every operation: any engine call that fails makes the dispatcher return
    exactly that error, and on the client side even a `NotFound` storage error
    arrives unchanged as `QdrantError::Storage` (the client's
    `CollectionError::NotFound` remap arm matches a different variant and never
    fires for worker-produced errors). -/
theorem engine_error_passthrough :
    (∀ (e : Engine) (req : QdrantRequest) (c : EngineCall) (err : StorageError),
      c ∈ Prog.trace e req.handle → e c = .error err →
        Prog.run e req.handle = .error err) ∧
    (∀ s : StorageError,
      get_collection_client (.replied (.error s)) = .err (.Storage s)) :=
  ⟨fun e req c err hm he => Prog.run_err_of_trace_err e req.handle c err hm he,
    fun s => rfl⟩

theorem engine_error_passthrough_witness :
    Prog.run failingEngine (QdrantRequest.Collection .List).handle =
      .error (StorageError.ServiceError ("boom")) ∧
    get_collection_client (.replied (.error (.NotFound ("missing")))) =
      .err (.Storage (.NotFound ("missing"))) :=
  ⟨engine_error_passthrough.1 failingEngine (QdrantRequest.Collection .List)
      .allCollections (StorageError.ServiceError ("boom")) (by decide) rfl,
    engine_error_passthrough.2 (.NotFound ("missing"))⟩

/-- C8: when the reply slot of a submitted request is dropped without being
    fulfilled, `send_request` fails with the distinct `ResponseRecv` ("response
    lost") variant, which is a different variant from every engine
    (`Storage`/`Collection`) error; the client surfaces it as-is (for example
    `get_collection` returns it as an error instead of remapping it to a
    not-found-style `Ok(None)`). -/
theorem reply_lost_error_distinct :
    send_request ChannelOutcome.dropped = .error QdrantError.ResponseRecv ∧
    QdrantError.isResponseRecv QdrantError.ResponseRecv = true ∧
    (∀ s : StorageError, QdrantError.isResponseRecv (QdrantError.Storage s) = false) ∧
    (∀ ce : CollectionError,
      QdrantError.isResponseRecv (QdrantError.Collection ce) = false) ∧
    get_collection_client ChannelOutcome.dropped =
      ClientOutcome.err QdrantError.ResponseRecv ∧
    count_points_client ChannelOutcome.dropped =
      ClientOutcome.err QdrantError.ResponseRecv :=
  ⟨rfl, rfl, fun s => rfl, fun ce => rfl, rfl, rfl⟩

/-- C9: a successful response whose variant does not match the request's family
    and sub-operation makes the client method panic (`Unexpected response`)
    instead of being coerced into some other result; the matching variant is
    accepted, and under the actual dispatcher the panic branch is unreachable:
    whatever the engine replies to a create-collection request, the client
    never panics. -/
theorem unexpected_response_panics :
    (∀ resp : QdrantResponse, responseTag resp ≠ OpTag.collectionCreate →
      create_collection_client (.replied (.ok resp)) = .panicked) ∧
    (∀ done : Bool,
      create_collection_client (.replied (.ok (.Collection (.Create done)))) = .ok done) ∧
    (∀ (e : Engine) (name : ColName) (cfg : CreateCollection),
      (create_collection_client
          (.replied (workerReply e (.Collection (.Create (name, cfg)))))).isPanicked =
        false) := by
  refine ⟨?_, fun done => rfl, ?_⟩
  · intro resp h
    cases resp <;> rename_i x <;> cases x <;> first | rfl | exact absurd rfl h
  · intro e name cfg
    cases hr : workerReply e (.Collection (.Create (name, cfg))) with
    | error s => rfl
    | ok resp =>
      obtain ⟨done, rfl⟩ := response_create_shape resp
        (run_ok_tag e (.Collection (.Create (name, cfg))) resp hr)
      rfl

theorem unexpected_response_panics_witness :
    create_collection_client (.replied (.ok (QdrantResponse.Collection (.List [])))) =
      .panicked :=
  unexpected_response_panics.1 (QdrantResponse.Collection (.List [])) (by decide)

/-- C10: a delete-vectors request with neither filter nor points list fails
    with the bad-request storage error "No filter or points provided" and
    performs no engine call; with both supplied, the filter-based deletion and
    the id-based deletion are both performed (in that order) and the result of
    the id-based one is returned. -/
theorem delete_vectors_both_or_neither :
    (∀ (e : Engine) (col : ColName) (names : List String)
      (key : Option ShardKeySelector) (wait : Bool) (ord : WriteOrdering),
      Prog.run e (do_delete_vectors col ⟨names, none, none, key⟩ none wait ord) =
        .error (StorageError.bad_request ("No filter or points provided")) ∧
      Prog.trace e (do_delete_vectors col ⟨names, none, none, key⟩ none wait ord) = []) ∧
    (∀ (e : Engine) (col : ColName) (names : List String) (f : Filter)
      (pts : List PointId) (key : Option ShardKeySelector) (wait : Bool)
      (ord : WriteOrdering) (r1 r2 : UpdateResult),
      e (.update col (.VectorOperation (.DeleteVectorsByFilter f names)) wait ord
          (get_shard_selector_for_update none key)) = .ok r1 →
      e (.update col (.VectorOperation (.DeleteVectors pts names)) wait ord
          (get_shard_selector_for_update none key)) = .ok r2 →
      Prog.run e (do_delete_vectors col ⟨names, some f, some pts, key⟩ none wait ord) =
          .ok r2 ∧
        Prog.trace e (do_delete_vectors col ⟨names, some f, some pts, key⟩ none wait ord) =
          [.update col (.VectorOperation (.DeleteVectorsByFilter f names)) wait ord
              (get_shard_selector_for_update none key),
            .update col (.VectorOperation (.DeleteVectors pts names)) wait ord
              (get_shard_selector_for_update none key)]) := by
  constructor
  · intro e col names key wait ord
    exact ⟨rfl, rfl⟩
  · intro e col names f pts key wait ord r1 r2 h1 h2
    constructor
    · simp only [do_delete_vectors, Prog.run, h1, h2]
    · simp only [do_delete_vectors, Prog.trace, h1, h2]

theorem delete_vectors_both_or_neither_witness :
    Prog.run defaultEngine
        (do_delete_vectors "docs" ⟨["v"], some ⟨"f"⟩, some [1, 2], none⟩ none false .Weak) =
      .ok ⟨0⟩ ∧
    Prog.run defaultEngine
        (do_delete_vectors "docs" ⟨["v"], none, none, none⟩ none false .Weak) =
      .error (StorageError.bad_request ("No filter or points provided")) :=
  ⟨(delete_vectors_both_or_neither.2 defaultEngine "docs" ["v"] ⟨"f"⟩ [1, 2] none false
      .Weak ⟨0⟩ ⟨0⟩ rfl rfl).1,
    (delete_vectors_both_or_neither.1 defaultEngine "docs" ["v"] none false .Weak).1⟩

end Qdrant
